import Mathlib

/-!
Verification of the sigma-calibration routine (`dppp/dputil.py`) and the
ADADP adaptive-learning-rate optimizer (`dppp/optimizers.py`) of the DPBayes
dppp repository.

Modelling conventions:
* Python floats are modelled as rationals (`ℚ`); machine floats are rationals,
  and every arithmetic operation appearing in the modelled code (`+`, `-`, `*`,
  `/`, `abs`, comparisons, `min`, `max`) is exact on rationals.  Division by
  zero follows Lean's total-division convention.
* `np.log` and `np.sqrt` do not return rationals; they are passed as explicit
  function parameters (`log`, `sqrt`) to the definitions that use them.
  Theorems that depend on their behaviour take the relevant property
  (e.g. monotonicity of `log`) as a hypothesis.
* The privacy-accountant oracle `compute_eps_fn` is a parameter of type
  `Oracle := ℚ → ℚ → Option ℚ` taking sigma and the precision scale;
  `none` models the oracle raising `ValueError` (a numeric-domain error).
* Python exceptions, assertion failures and crashes are modelled with the
  result type `Res`: `Res.err e` means the Python call raised; the `Err`
  constructor records which raise site fired.
* `while` loops are modelled by structural recursion on an explicit `fuel`
  argument; `Err.outOfFuel` marks runs whose modelled fuel was insufficient
  (in particular it models the genuine non-termination that the growth /
  shrink loops of `get_bracketing_bounds` exhibit when the evaluation budget
  runs out while the bracket is not yet crossed).
-/

namespace Dppp

set_option maxHeartbeats 2000000

set_option maxRecDepth 16000

/-- The distinct raise/crash sites of the modelled Python code. -/
inductive Err where
  /-- Fuel of the loop model ran out (models non-termination). -/
  | outOfFuel
  /-- `RuntimeError("Could not establish bounds in given evaluation limit")`;
      the field records the value of `num_evals` at the raise site. -/
  | budgetExhausted (n : ℕ)
  /-- `sig = np.mean(sig, sig_1)` in the growth/shrink loops of
      `get_bracketing_bounds`: `np.mean` receives `sig_1` as its `axis`
      argument and raises, uncaught. -/
  | npMeanAxis
  /-- One of the argument `assert` statements at the top of
      `get_bracketing_bounds` failed. -/
  | argAssertFail
  /-- One of the two loop-invariant asserts of `_approximate_sigma`
      (`bound_eps[0] >= target_eps`, `bound_eps[1] <= target_eps`) failed. -/
  | invariantViolation
  /-- The assert `new_sig >= bounds[0] and new_sig <= bounds[1]` of
      `_approximate_sigma` failed. -/
  | fitAssertFail
  /-- The oracle raised `ValueError` inside the refinement loop, where no
      `try` block catches it. -/
  | uncaughtValueError
  /-- One of the two asserts at the top of `update_bounds` failed. -/
  | updateAssertFail
  /-- `bounds[idx][0]` with an all-false mask `idx` in the `force_smaller`
      branch of `_approximate_sigma`: indexing an empty selection. -/
  | indexError
  /-- The final assert `not force_smaller or eps < target_eps` of
      `_approximate_sigma` failed. -/
  | finalAssertFail
  /-- `return new_sig, ...` with the local variable `new_sig` never assigned
      (`UnboundLocalError`). -/
  | unboundNewSig
  deriving DecidableEq

/-- Result of a modelled Python call: normal return or a raise. -/
inductive Res (α : Type) where
  | ok : α → Res α
  | err : Err → Res α
  deriving DecidableEq

/-- A privacy-accountant oracle `compute_eps_fn(sigma, precision)`;
    `none` models a raised `ValueError`. -/
abbrev Oracle := ℚ → ℚ → Option ℚ

/-- `update_bounds(sig, eps, target_eps, bounds, bound_eps, consecutive_updates)`
    from `dputil.py`.  Updates the lower bound when `eps > target_eps` and the
    upper bound otherwise; the two asserts at its top are modelled as
    `Err.updateAssertFail`. -/
def update_bounds (sig eps target_eps : ℚ) (bounds bound_eps : ℚ × ℚ)
    (consecutive_updates : ℕ × ℕ) : Res ((ℚ × ℚ) × (ℚ × ℚ) × (ℕ × ℕ)) :=
  if eps ≤ bound_eps.1 then
    if bound_eps.2 ≤ eps then
      if target_eps < eps then
        .ok ((sig, bounds.2), (eps, bound_eps.2), (consecutive_updates.1 + 1, 0))
      else
        .ok ((bounds.1, sig), (bound_eps.1, eps), (0, consecutive_updates.2 + 1))
    else .err .updateAssertFail
  else .err .updateAssertFail

/-- First `while` loop of `get_bracketing_bounds` (the stable-point search):
    evaluate the oracle at precision 1 and 2, accept when the two values agree
    within 10% relative error, multiply `sig` by 10 and retry on `ValueError`
    or disagreement.  The `if num_evals >= maxeval: raise RuntimeError` check
    that follows the loop in the Python code is included (it also fires when
    the loop exited via `break`). -/
def stable_point_loop (f : Oracle) (maxeval : ℕ) : ℕ → ℚ → ℕ → Res (ℚ × ℚ × ℕ)
  | 0, _sig, num_evals =>
    if num_evals < maxeval then .err .outOfFuel
    else .err (.budgetExhausted num_evals)
  | fuel + 1, sig, num_evals =>
    if num_evals < maxeval then
      match f sig 1 with
      | none => stable_point_loop f maxeval fuel (sig * 10) (num_evals + 1)
      | some eps =>
        match f sig 2 with
        | none => stable_point_loop f maxeval fuel (sig * 10) (num_evals + 2)
        | some new_eps =>
          if |1 - eps / new_eps| ≤ 1/10 then
            if maxeval ≤ num_evals + 2 then .err (.budgetExhausted (num_evals + 2))
            else .ok (sig, eps, num_evals + 2)
          else stable_point_loop f maxeval fuel (sig * 10) (num_evals + 2)
    else .err (.budgetExhausted num_evals)

/-- The `while eps >= target_eps` growth loop of `get_bracketing_bounds`
    (taken when the stable point's epsilon is at or above target): multiply
    `sig` by 4 and re-evaluate until epsilon drops below target.  A
    `ValueError` from the oracle reaches `sig = np.mean(sig, sig_1)`, which
    raises (modelled by `Err.npMeanAxis`).  When the budget is already spent
    the inner loop body is skipped entirely and the outer loop spins without
    re-evaluating — genuine non-termination, modelled by fuel exhaustion. -/
def grow_loop (f : Oracle) (maxeval : ℕ) (target_eps sig_1 eps_1 : ℚ) :
    ℕ → ℚ → ℚ → ℕ → Res ((ℚ × ℚ) × (ℚ × ℚ) × ℕ)
  | 0, sig, eps, num_evals =>
    if target_eps ≤ eps then .err .outOfFuel
    else .ok ((sig_1, sig), (eps_1, eps), num_evals)
  | fuel + 1, sig, eps, num_evals =>
    if target_eps ≤ eps then
      if num_evals < maxeval then
        match f (sig * 4) 1 with
        | some eps' =>
          grow_loop f maxeval target_eps sig_1 eps_1 fuel (sig * 4) eps' (num_evals + 1)
        | none => .err .npMeanAxis
      else grow_loop f maxeval target_eps sig_1 eps_1 fuel (sig * 4) eps num_evals
    else .ok ((sig_1, sig), (eps_1, eps), num_evals)

/-- The `while eps < target_eps` shrink loop of `get_bracketing_bounds`
    (taken when the stable point's epsilon is below target): divide `sig`
    by 4 and re-evaluate until epsilon reaches target.  Error behaviour is
    identical to `grow_loop`. -/
def shrink_loop (f : Oracle) (maxeval : ℕ) (target_eps sig_1 eps_1 : ℚ) :
    ℕ → ℚ → ℚ → ℕ → Res ((ℚ × ℚ) × (ℚ × ℚ) × ℕ)
  | 0, sig, eps, num_evals =>
    if eps < target_eps then .err .outOfFuel
    else .ok ((sig, sig_1), (eps, eps_1), num_evals)
  | fuel + 1, sig, eps, num_evals =>
    if eps < target_eps then
      if num_evals < maxeval then
        match f (sig / 4) 1 with
        | some eps' =>
          shrink_loop f maxeval target_eps sig_1 eps_1 fuel (sig / 4) eps' (num_evals + 1)
        | none => .err .npMeanAxis
      else shrink_loop f maxeval target_eps sig_1 eps_1 fuel (sig / 4) eps num_evals
    else .ok ((sig, sig_1), (eps, eps_1), num_evals)

/-- `get_bracketing_bounds(compute_eps_fn, target_eps, maxeval, initial_sigma)`
    from `dputil.py`: argument asserts, stable-point search, then geometric
    growth or shrink until the bracket straddles `target_eps`.  Returns
    `(bounds, bound_eps, num_evals)`. -/
def get_bracketing_bounds (f : Oracle) (target_eps : ℚ) (maxeval : ℕ)
    (initial_sigma : ℚ) (fuel : ℕ) : Res ((ℚ × ℚ) × (ℚ × ℚ) × ℕ) :=
  if 0 < initial_sigma then
    if 0 < target_eps then
      if 0 < maxeval then
        match stable_point_loop f maxeval fuel initial_sigma 0 with
        | .err e => .err e
        | .ok (sig, eps, num_evals) =>
          if target_eps ≤ eps then
            grow_loop f maxeval target_eps sig eps fuel sig eps num_evals
          else
            shrink_loop f maxeval target_eps sig eps fuel sig eps num_evals
      else .err .argAssertFail
    else .err .argAssertFail
  else .err .argAssertFail

/-- The log-linear fit of one refinement iteration of `_approximate_sigma`:
    `b = (bounds[1]-bounds[0]) / (log(bound_eps[0]) - log(bound_eps[1]))`,
    `a = np.mean(bounds + b*np.log(bound_eps))`, prediction
    `new_sig = a - b*log(target_eps)`.  `log` stands for `np.log`. -/
def fit_new_sig (log : ℚ → ℚ) (bounds bound_eps : ℚ × ℚ) (target_eps : ℚ) : ℚ :=
  let b := (bounds.2 - bounds.1) / (log bound_eps.1 - log bound_eps.2)
  let a := ((bounds.1 + b * log bound_eps.1) + (bounds.2 + b * log bound_eps.2)) / 2
  a - b * log target_eps

/-- The refinement `while` loop of `_approximate_sigma`.  Carries
    `(bounds, bound_eps, consecutive_updates, eps, new_sig?, num_evals)`;
    `new_sig?` is `none` while the Python local `new_sig` is still unassigned.
    Models the two invariant asserts, the bracket assert on the fitted sigma,
    the oracle call (uncaught `ValueError`), `update_bounds`, and the
    anti-stall midpoint evaluation (`MAX_CONSECUTIVE_UPDATES = 2`). -/
def refine_loop (f : Oracle) (log : ℚ → ℚ) (target_eps tol : ℚ) (maxeval : ℕ) :
    ℕ → (ℚ × ℚ) → (ℚ × ℚ) → (ℕ × ℕ) → ℚ → Option ℚ → ℕ →
    Res ((ℚ × ℚ) × (ℚ × ℚ) × Option ℚ × ℚ × ℕ)
  | 0, bounds, bound_eps, _consecutive_updates, eps, new_sig0, num_evals =>
    if |target_eps - eps| > tol ∧ num_evals < maxeval then .err .outOfFuel
    else .ok (bounds, bound_eps, new_sig0, eps, num_evals)
  | fuel + 1, bounds, bound_eps, consecutive_updates, eps, new_sig0, num_evals =>
    if |target_eps - eps| > tol ∧ num_evals < maxeval then
      if target_eps ≤ bound_eps.1 then
        if bound_eps.2 ≤ target_eps then
          if bounds.1 ≤ fit_new_sig log bounds bound_eps target_eps ∧
              fit_new_sig log bounds bound_eps target_eps ≤ bounds.2 then
            match f (fit_new_sig log bounds bound_eps target_eps) 1 with
            | none => .err .uncaughtValueError
            | some eps' =>
              match update_bounds (fit_new_sig log bounds bound_eps target_eps) eps'
                      target_eps bounds bound_eps consecutive_updates with
              | .err e => .err e
              | .ok (bounds', bound_eps', cu') =>
                if (2 < cu'.1 ∨ 2 < cu'.2) ∧ num_evals + 1 < maxeval then
                  match f ((bounds'.1 + bounds'.2) / 2) 1 with
                  | none => .err .uncaughtValueError
                  | some eps2 =>
                    match update_bounds ((bounds'.1 + bounds'.2) / 2) eps2
                            target_eps bounds' bound_eps' cu' with
                    | .err e => .err e
                    | .ok (bounds'', bound_eps'', cu'') =>
                      refine_loop f log target_eps tol maxeval fuel
                        bounds'' bound_eps'' cu'' eps2
                        (some ((bounds'.1 + bounds'.2) / 2)) (num_evals + 2)
                else
                  refine_loop f log target_eps tol maxeval fuel
                    bounds' bound_eps' cu' eps'
                    (some (fit_new_sig log bounds bound_eps target_eps)) (num_evals + 1)
          else .err .fitAssertFail
        else .err .invariantViolation
      else .err .invariantViolation
    else .ok (bounds, bound_eps, new_sig0, eps, num_evals)

/-- The code following the refinement loop of `_approximate_sigma`: the
    `force_smaller` re-selection (`idx = bound_eps < target_eps;
    new_sig = bounds[idx][0]; eps = bound_eps[idx][0]`), the final assert
    `not force_smaller or eps < target_eps`, and the return — which raises
    `UnboundLocalError` when `new_sig` was never assigned. -/
def finalize (force_smaller : Bool) (target_eps : ℚ) (bounds bound_eps : ℚ × ℚ)
    (new_sig0 : Option ℚ) (eps : ℚ) (num_evals : ℕ) : Res (ℚ × ℚ × ℕ) :=
  match (if force_smaller ∧ target_eps < eps then
          (if bound_eps.1 < target_eps then .ok (some bounds.1, bound_eps.1)
           else if bound_eps.2 < target_eps then .ok (some bounds.2, bound_eps.2)
           else .err .indexError)
         else .ok (new_sig0, eps) : Res (Option ℚ × ℚ)) with
  | .err e => .err e
  | .ok (new_sig1, eps') =>
    if force_smaller ∧ target_eps ≤ eps' then .err .finalAssertFail
    else
      match new_sig1 with
      | none => .err .unboundNewSig
      | some s => .ok (s, eps', num_evals)

/-- `_approximate_sigma(compute_eps_fn, target_eps, q, tol, force_smaller, maxeval)`
    from `dputil.py`: initial sigma `1/(0.01/q)`, bracketing, refinement loop
    started at `eps = bound_eps[1]` with `new_sig` unassigned, finalization. -/
def _approximate_sigma (f : Oracle) (log : ℚ → ℚ) (target_eps q tol : ℚ)
    (force_smaller : Bool) (maxeval : ℕ) (fuel : ℕ) : Res (ℚ × ℚ × ℕ) :=
  match get_bracketing_bounds f target_eps maxeval (1 / (1/100 / q)) fuel with
  | .err e => .err e
  | .ok (bounds, bound_eps, num_evals) =>
    match refine_loop f log target_eps tol maxeval fuel
            bounds bound_eps (0, 0) bound_eps.2 none num_evals with
    | .err e => .err e
    | .ok (bounds', bound_eps', new_sig0, eps, num_evals') =>
      finalize force_smaller target_eps bounds' bound_eps' new_sig0 eps num_evals'

/-! ### ADADP optimizer (`dppp/optimizers.py`)

Parameter pytrees are modelled as a single flat array `List ℚ` (one leaf);
`tree_multimap` over it is `List.zipWith`, `np.sum` is `List.sum`.
`np.sqrt` is a function parameter `sqrt`. -/

/-- `compute_update_step(x, g, step_size_)` from `adadp.update`:
    elementwise `x_ - step_size_ * g_`. -/
def compute_update_step (x g : List ℚ) (step_size_ : ℚ) : List ℚ :=
  List.zipWith (fun x_ g_ => x_ - step_size_ * g_) x g

/-- The optimizer state `(x, lr, x_stepped, x_prev)` threaded by `adadp`. -/
structure AdadpState where
  x : List ℚ
  lr : ℚ
  x_stepped : List ℚ
  x_prev : List ℚ
  deriving DecidableEq

/-- The measured discretization error of an odd ADADP step:
    `np.sqrt(np.sum([np.sum(((x_full - x_halfs)/np.maximum(1., x_full))**2) ...]))`
    over the leaves of `x_stepped` (full step) and `new_x` (two half steps). -/
def adadp_err (sqrt : ℚ → ℚ) (x_stepped new_x : List ℚ) : ℚ :=
  sqrt (List.zipWith (fun x_full x_halfs => ((x_full - x_halfs) / max 1 x_full) ^ 2)
          x_stepped new_x).sum

/-- `update(i, g, state)` of the `adadp` optimizer.  Even steps take a half
    step and record the full step and the pre-step parameters; odd steps
    measure the discretization error, multiply the learning rate by
    `np.minimum(np.maximum(np.sqrt(tol/err_e), 0.9), 1.1)` (the Python code
    uses these literals, not `alpha_min`/`alpha_max`), and when
    `stability_check` holds and the error exceeds `tol` revert the parameters
    to the recorded pre-step value. -/
def adadp_update (sqrt : ℚ → ℚ) (tol : ℚ) (stability_check : Bool)
    (alpha_min alpha_max : ℚ) (i : ℕ) (g : List ℚ) (st : AdadpState) : AdadpState :=
  let new_x := compute_update_step st.x g (1/2 * st.lr)
  if i % 2 = 0 then
    { x := new_x, lr := st.lr, x_stepped := compute_update_step st.x g st.lr, x_prev := st.x }
  else
    let err_e := adadp_err sqrt st.x_stepped new_x
    let new_lr := st.lr * min (max (sqrt (tol / err_e)) (9/10)) (11/10)
    let new_x' := if stability_check ∧ tol < err_e then st.x_prev else new_x
    { x := new_x', lr := new_lr, x_stepped := st.x_stepped, x_prev := st.x_prev }

/-! ### Concrete oracles used in witnesses and counterexamples -/

/-- An oracle that raises `ValueError` on every invocation. -/
def oracle_always_raises : Oracle := fun _ _ => none

/-- The monotonically decreasing oracle `eps(sigma) = 2/sigma`. -/
def oracle_two_over : Oracle := fun s _ => some (2 / s)

/-- The monotonically decreasing oracle `eps(sigma) = 12/sigma`. -/
def oracle_twelve_over : Oracle := fun s _ => some (12 / s)

/-- A monotonically decreasing oracle that returns `2` for `sigma ≤ 1` and
    raises `ValueError` for larger sigma. -/
def oracle_raises_above_one : Oracle := fun s _ => if s ≤ 1 then some 2 else none

/-! ### C1: budget exhaustion with an always-raising oracle -/

/-- With an always-raising oracle, the stable-point search counts one
    evaluation per retry and raises the budget-exhausted `RuntimeError` with
    the counter exactly at `maxeval`. -/
theorem stable_point_loop_always_raises (f : Oracle) (hf : ∀ s p, f s p = none)
    (maxeval : ℕ) :
    ∀ (fuel : ℕ) (sig : ℚ) (num_evals : ℕ), num_evals ≤ maxeval →
      maxeval ≤ num_evals + fuel →
      stable_point_loop f maxeval fuel sig num_evals = .err (.budgetExhausted maxeval) := by
  intro fuel
  induction fuel with
  | zero =>
    intro sig n hn hm
    rw [stable_point_loop]
    have : ¬ (n < maxeval) := by omega
    simp only [this, if_false]
    have : n = maxeval := by omega
    rw [this]
  | succ fuel ih =>
    intro sig n hn hm
    rw [stable_point_loop]
    by_cases h : n < maxeval
    · simp only [h, if_true, hf sig 1]
      exact ih (sig * 10) (n + 1) (by omega) (by omega)
    · simp only [h, if_false]
      have : n = maxeval := by omega
      rw [this]

/-- C1: for every positive `maxeval`, every positive `q` and `target_eps`, and
    every oracle that raises a domain error on every invocation,
    `_approximate_sigma` (via `get_bracketing_bounds`) fails with the
    budget-exhausted error carrying an evaluation count of exactly `maxeval`
    — never fewer and never more. -/
theorem c1_budget_exhausted_exactly_maxeval (f : Oracle) (log : ℚ → ℚ)
    (target_eps q tol : ℚ) (force_smaller : Bool) (maxeval fuel : ℕ)
    (hf : ∀ s p, f s p = none) (hm : 0 < maxeval) (hq : 0 < q)
    (ht : 0 < target_eps) (hfuel : maxeval ≤ fuel) :
    _approximate_sigma f log target_eps q tol force_smaller maxeval fuel =
      .err (.budgetExhausted maxeval) := by
  have hsig : (0 : ℚ) < 1 / (1/100 / q) := one_div_pos.mpr (div_pos (by norm_num) hq)
  have hbr : get_bracketing_bounds f target_eps maxeval (1 / (1/100 / q)) fuel =
      .err (.budgetExhausted maxeval) := by
    unfold get_bracketing_bounds
    rw [if_pos hsig, if_pos ht, if_pos hm,
      stable_point_loop_always_raises f hf maxeval fuel _ 0 (by omega) (by omega)]
  simp only [_approximate_sigma]
  rw [hbr]

/-- Witness for C1 at a concrete always-raising oracle, `maxeval = 5`. -/
theorem c1_budget_exhausted_witness :
    _approximate_sigma oracle_always_raises id 1 (1/100) (1/1000) false 5 30 =
      .err (.budgetExhausted 5) :=
  c1_budget_exhausted_exactly_maxeval oracle_always_raises id 1 (1/100) (1/1000)
    false 5 30 (fun _ _ => rfl) (by norm_num) (by norm_num) (by norm_num) (by norm_num)

/-! ### C9: zero refinement iterations leave `new_sig` unbound -/

/-- C9: a concrete valid input (monotone oracle `2/sigma`, `target_eps = 1/2`,
    `q = 1/100`, `tol = 1/2`, `maxeval = 10`) on which bracketing succeeds,
    the upper-bound epsilon is already within `tol` of target so the
    refinement loop runs zero iterations, and `_approximate_sigma` fails with
    the unbound-local-variable error on `new_sig` instead of returning a
    `(sigma, epsilon, evaluations)` triple. -/
theorem c9_zero_iteration_unbound_local :
    _approximate_sigma oracle_two_over id (1/2) (1/100) (1/2) false 10 20 =
      .err .unboundNewSig := by
  have h1 : stable_point_loop oracle_two_over 10 20 1 0 = .ok (1, 2, 2) := by
    norm_num [stable_point_loop, oracle_two_over]
  have h2 : grow_loop oracle_two_over 10 (1/2) 1 2 20 1 2 2 =
      .ok ((1, 16), (2, 1/8), 4) := by
    norm_num [grow_loop, oracle_two_over]
  have h3 : get_bracketing_bounds oracle_two_over (1/2) 10 1 20 =
      .ok ((1, 16), (2, 1/8), 4) := by
    norm_num [get_bracketing_bounds, h1, h2]
  have h4 : refine_loop oracle_two_over id (1/2) (1/2) 10 20
      (1, 16) (2, 1/8) (0, 0) (1/8) none 4 =
      .ok ((1, 16), (2, 1/8), none, 1/8, 4) := by
    rw [refine_loop]
    norm_num [abs_of_pos]
  have h5 : finalize false (1/2) (1, 16) (2, 1/8) none (1/8) 4 =
      .err .unboundNewSig := by
    norm_num [finalize]
  have hsig : (1 : ℚ) / (1/100 / (1/100)) = 1 := by norm_num
  simp only [_approximate_sigma, hsig, h3, h4, h5]

/-! ### C10 and C4: the learning-rate clamp ignores `alpha_min`/`alpha_max` -/

/-- C10: for every step index, gradient and state, and any two choices of the
    `alpha_min`/`alpha_max` arguments, `adadp`'s update returns an identical
    new state: the clamp applied to the learning-rate multiplier uses the
    literal constants `0.9` and `1.1`, so behaviour is independent of the
    `alpha_min`/`alpha_max` parameters. -/
theorem c10_alpha_bounds_unused (sqrt : ℚ → ℚ) (tol : ℚ) (stability_check : Bool)
    (a b a' b' : ℚ) (i : ℕ) (g : List ℚ) (st : AdadpState) :
    adadp_update sqrt tol stability_check a b i g st =
      adadp_update sqrt tol stability_check a' b' i g st := rfl

/-- C4 (code bug): at the failing input `alpha_min = alpha_max = 2`, `tol = 1`,
    odd step `i = 1`, `g = [0]`, state `x = [0]`, `lr = 1`, `x_stepped = [2]`
    (measured error `err_e = 1`), the code multiplies the learning rate by
    `clamp(sqrt(tol/err_e), 0.9, 1.1) = 1`, whereas the claimed (and
    docstring-documented) multiplier `clamp(sqrt(tol/err_e), alpha_min,
    alpha_max)` evaluates to `2`. -/
theorem c4_lr_clamp_uses_literal_bounds (sqrt : ℚ → ℚ) (hs : sqrt 1 = 1) :
    (adadp_update sqrt 1 true 2 2 1 [0] ⟨[0], 1, [2], [0]⟩).lr = 1 ∧
      (1 : ℚ) * min (max (sqrt (1/1)) 2) 2 = 2 := by
  constructor
  · norm_num [adadp_update, adadp_err, compute_update_step, hs]
  · norm_num [hs]

/-- Witness for C4 with `sqrt` instantiated at a function with `sqrt 1 = 1`. -/
theorem c4_lr_clamp_witness :
    (adadp_update id 1 true 2 2 1 [0] ⟨[0], 1, [2], [0]⟩).lr = 1 ∧
      (1 : ℚ) * min (max (id ((1:ℚ)/1)) 2) 2 = 2 :=
  c4_lr_clamp_uses_literal_bounds id rfl

/-! ### C6: which bound does `update_bounds` update -/

/-- C6 counterexample: at `eps = target_eps = 1` (so `eps ≥ target_eps` holds)
    `update_bounds` updates the *upper* bound — the result keeps the lower
    bound `1` and sets the upper bound to the new sigma `2` — whereas the
    claim says the lower bound is updated whenever `eps ≥ target_eps`
    (which would give bounds `(2, 3)` and counters `(6, 0)`). -/
theorem c6_tie_updates_upper_counterexample :
    (1 : ℚ) ≤ 1 ∧
    update_bounds 2 1 1 (1, 3) (2, 0) (5, 7) = .ok ((1, 2), (2, 1), (0, 8)) ∧
    update_bounds 2 1 1 (1, 3) (2, 0) (5, 7) ≠ .ok ((2, 3), (1, 0), (6, 0)) := by
  norm_num [update_bounds]

/-- C6 (amended): provided the two entry asserts hold, `update_bounds` updates
    the lower bound if and only if the new epsilon is *strictly* greater than
    `target_eps`, and the upper bound otherwise (ties `eps = target_eps` go to
    the upper bound); it increments the updated side's consecutive-update
    counter and resets the other side's counter to zero. -/
theorem c6_update_bounds_strictly_greater (sig eps target_eps : ℚ)
    (bounds bound_eps : ℚ × ℚ) (cu : ℕ × ℕ)
    (h1 : eps ≤ bound_eps.1) (h2 : bound_eps.2 ≤ eps) :
    (target_eps < eps →
      update_bounds sig eps target_eps bounds bound_eps cu =
        .ok ((sig, bounds.2), (eps, bound_eps.2), (cu.1 + 1, 0))) ∧
    (eps ≤ target_eps →
      update_bounds sig eps target_eps bounds bound_eps cu =
        .ok ((bounds.1, sig), (bound_eps.1, eps), (0, cu.2 + 1))) := by
  unfold update_bounds
  rw [if_pos h1, if_pos h2]
  constructor
  · intro h
    rw [if_pos h]
  · intro h
    rw [if_neg (not_lt.mpr h)]

/-- Witness for the amended C6 at a concrete strictly-greater input. -/
theorem c6_update_bounds_witness :
    update_bounds 5 2 1 (1, 3) (4, 0) (1, 1) = .ok ((5, 3), (2, 0), (2, 0)) :=
  (c6_update_bounds_strictly_greater 5 2 1 (1, 3) (4, 0) (1, 1)
    (by norm_num) (by norm_num)).1 (by norm_num)

/-! ### C8: odd-step stability check -/

/-- C8: on every odd-indexed update with `stability_check` enabled, if the
    measured discretization error exceeds `tol` the returned parameters are
    the pre-step parameters recorded on the prior even step (`x_prev`) while
    the learning-rate adjustment is still applied; if the error does not
    exceed `tol` the returned parameters are the half-step update from the
    current parameters. -/
theorem c8_odd_step_stability (sqrt : ℚ → ℚ) (tol alpha_min alpha_max : ℚ)
    (i : ℕ) (g : List ℚ) (st : AdadpState) (hodd : i % 2 = 1) :
    (tol < adadp_err sqrt st.x_stepped (compute_update_step st.x g (1/2 * st.lr)) →
      (adadp_update sqrt tol true alpha_min alpha_max i g st).x = st.x_prev) ∧
    (adadp_err sqrt st.x_stepped (compute_update_step st.x g (1/2 * st.lr)) ≤ tol →
      (adadp_update sqrt tol true alpha_min alpha_max i g st).x =
        compute_update_step st.x g (1/2 * st.lr)) ∧
    (adadp_update sqrt tol true alpha_min alpha_max i g st).lr =
      st.lr * min (max (sqrt (tol / adadp_err sqrt st.x_stepped
        (compute_update_step st.x g (1/2 * st.lr)))) (9/10)) (11/10) := by
  have h0 : ¬ (i % 2 = 0) := by omega
  refine ⟨fun h => ?_, fun h => ?_, ?_⟩
  · simp only [adadp_update, if_neg h0]
    rw [if_pos ⟨by trivial, h⟩]
  · simp only [adadp_update, if_neg h0]
    rw [if_neg (fun hc => absurd hc.2 (not_lt.mpr h))]
  · simp only [adadp_update, if_neg h0]

/-- Witness for C8 at a concrete odd step (error `1` not exceeding `tol = 1`,
    so the half step is kept and the learning rate is multiplied by 1). -/
theorem c8_odd_step_witness :
    (adadp_update id 1 true (9/10) (11/10) 1 [2] ⟨[1], 1, [3], [7]⟩).x = [0] ∧
      (adadp_update id 1 true (9/10) (11/10) 1 [2] ⟨[1], 1, [3], [7]⟩).lr = 1 := by
  have h := c8_odd_step_stability id 1 (9/10) (11/10) 1 [2] ⟨[1], 1, [3], [7]⟩ rfl
  have he : adadp_err id (AdadpState.mk [1] 1 [3] [7]).x_stepped
      (compute_update_step (AdadpState.mk [1] 1 [3] [7]).x [2]
        (1/2 * (AdadpState.mk [1] 1 [3] [7]).lr)) = 1 := by
    norm_num [adadp_err, compute_update_step]
  constructor
  · rw [h.2.1 (by rw [he])]
    norm_num [compute_update_step]
  · rw [h.2.2, he]
    norm_num

/-! ### C3: the fitted sigma lies within the bracket -/

/-- C3: in every refinement iteration, given `bounds[0] ≤ bounds[1]`, the
    bracket invariant `bound_eps[0] ≥ target_eps ≥ bound_eps[1]` and positive
    epsilon values, the sigma predicted by the log-linear fit lies within the
    current bracket `[bounds[0], bounds[1]]` (so the assertion at that point
    never fails).  `log` is any function monotone on the positives, which
    `np.log` is. -/
theorem c3_fit_within_bracket (log : ℚ → ℚ)
    (hlog : ∀ x y : ℚ, 0 < x → x ≤ y → log x ≤ log y)
    (bounds bound_eps : ℚ × ℚ) (target_eps : ℚ)
    (hb : bounds.1 ≤ bounds.2) (hpos : 0 < bound_eps.2)
    (h1 : bound_eps.2 ≤ target_eps) (h2 : target_eps ≤ bound_eps.1) :
    bounds.1 ≤ fit_new_sig log bounds bound_eps target_eps ∧
      fit_new_sig log bounds bound_eps target_eps ≤ bounds.2 := by
  obtain ⟨s0, s1⟩ := bounds
  obtain ⟨e0, e1⟩ := bound_eps
  simp only at hb hpos h1 h2
  have hL1t : log e1 ≤ log target_eps := hlog e1 target_eps hpos h1
  have hLt0 : log target_eps ≤ log e0 :=
    hlog target_eps e0 (lt_of_lt_of_le hpos h1) h2
  unfold fit_new_sig
  simp only
  rcases eq_or_lt_of_le (le_trans hL1t hLt0) with hEq | hLt
  · have hz : log e0 - log e1 = 0 := sub_eq_zero.mpr hEq.symm
    rw [hz, div_zero]
    constructor
    · ring_nf
      linarith
    · ring_nf
      linarith
  · have hd : 0 < log e0 - log e1 := by linarith
    have hne : log e0 - log e1 ≠ 0 := ne_of_gt hd
    set b := (s1 - s0) / (log e0 - log e1) with hbdef
    have key0 : ((s0 + b * log e0) + (s1 + b * log e1)) / 2 - b * log target_eps - s0 =
        (s1 - s0) * (log e0 - log target_eps) / (log e0 - log e1) := by
      rw [hbdef]
      field_simp
      ring
    have key1 : ((s0 + b * log e0) + (s1 + b * log e1)) / 2 - b * log target_eps - s1 =
        -((s1 - s0) * (log target_eps - log e1) / (log e0 - log e1)) := by
      rw [hbdef]
      field_simp
      ring
    have hk0 : 0 ≤ (s1 - s0) * (log e0 - log target_eps) / (log e0 - log e1) :=
      div_nonneg (mul_nonneg (by linarith) (by linarith)) (le_of_lt hd)
    have hk1 : 0 ≤ (s1 - s0) * (log target_eps - log e1) / (log e0 - log e1) :=
      div_nonneg (mul_nonneg (by linarith) (by linarith)) (le_of_lt hd)
    constructor
    · linarith [key0, hk0]
    · linarith [key1, hk1]

/-- Witness for C3 with `log := id` (monotone) at a concrete bracket. -/
theorem c3_fit_within_bracket_witness :
    (1 : ℚ) ≤ fit_new_sig id (1, 3) (4, 1) 2 ∧ fit_new_sig id (1, 3) (4, 1) 2 ≤ 3 :=
  c3_fit_within_bracket id (fun _ _ _ h => h) (1, 3) (4, 1) 2
    (by norm_num) (by norm_num) (by norm_num) (by norm_num)

/-! ### C2: the bracket invariant -/

/-- `update_bounds` never raises the loop-invariant assertion (its own asserts
    raise `Err.updateAssertFail`). -/
theorem update_bounds_no_invariantViolation (sig eps target_eps : ℚ)
    (bounds bound_eps : ℚ × ℚ) (cu : ℕ × ℕ) :
    update_bounds sig eps target_eps bounds bound_eps cu ≠ .err .invariantViolation := by
  unfold update_bounds
  split
  · split
    · split
      · simp
      · simp
    · simp
  · simp

/-- A successful `update_bounds` preserves the bracket-epsilon invariant
    `bound_eps[0] ≥ target_eps ≥ bound_eps[1]`. -/
theorem update_bounds_ok_invariant (sig eps target_eps : ℚ)
    (bounds bound_eps : ℚ × ℚ) (cu : ℕ × ℕ) (r : (ℚ × ℚ) × (ℚ × ℚ) × (ℕ × ℕ))
    (hb0 : target_eps ≤ bound_eps.1) (hb1 : bound_eps.2 ≤ target_eps)
    (h : update_bounds sig eps target_eps bounds bound_eps cu = .ok r) :
    target_eps ≤ r.2.1.1 ∧ r.2.1.2 ≤ target_eps := by
  unfold update_bounds at h
  by_cases h1 : eps ≤ bound_eps.1
  · rw [if_pos h1] at h
    by_cases h2 : bound_eps.2 ≤ eps
    · rw [if_pos h2] at h
      by_cases h3 : target_eps < eps
      · rw [if_pos h3] at h
        injection h with h4
        subst h4
        exact ⟨le_of_lt h3, hb1⟩
      · rw [if_neg h3] at h
        injection h with h4
        subst h4
        exact ⟨hb0, not_lt.mp h3⟩
    · rw [if_neg h2] at h
      exact Res.noConfusion h
  · rw [if_neg h1] at h
    exact Res.noConfusion h

/-- The stable-point search never raises the loop-invariant assertion. -/
theorem stable_point_loop_no_invariantViolation (f : Oracle) (maxeval : ℕ) :
    ∀ (fuel : ℕ) (sig : ℚ) (n : ℕ),
      stable_point_loop f maxeval fuel sig n ≠ .err .invariantViolation := by
  intro fuel
  induction fuel with
  | zero =>
    intro sig n
    rw [stable_point_loop]
    split <;> simp
  | succ fuel ih =>
    intro sig n
    rw [stable_point_loop]
    by_cases h : n < maxeval
    · rw [if_pos h]
      cases hf1 : f sig 1 with
      | none => exact ih _ _
      | some eps =>
        dsimp only
        cases hf2 : f sig 2 with
        | none => exact ih _ _
        | some new_eps =>
          dsimp only
          split
          · split <;> simp
          · exact ih _ _
    · rw [if_neg h]
      simp

/-- The growth loop never raises the loop-invariant assertion. -/
theorem grow_loop_no_invariantViolation (f : Oracle) (maxeval : ℕ)
    (target_eps sig_1 eps_1 : ℚ) :
    ∀ (fuel : ℕ) (sig eps : ℚ) (n : ℕ),
      grow_loop f maxeval target_eps sig_1 eps_1 fuel sig eps n ≠
        .err .invariantViolation := by
  intro fuel
  induction fuel with
  | zero =>
    intro sig eps n
    rw [grow_loop]
    split <;> simp
  | succ fuel ih =>
    intro sig eps n
    rw [grow_loop]
    by_cases hg : target_eps ≤ eps
    · rw [if_pos hg]
      by_cases hn : n < maxeval
      · rw [if_pos hn]
        cases hf : f (sig * 4) 1 with
        | some eps' => exact ih _ _ _
        | none => simp
      · rw [if_neg hn]
        exact ih _ _ _
    · rw [if_neg hg]
      simp

/-- The shrink loop never raises the loop-invariant assertion. -/
theorem shrink_loop_no_invariantViolation (f : Oracle) (maxeval : ℕ)
    (target_eps sig_1 eps_1 : ℚ) :
    ∀ (fuel : ℕ) (sig eps : ℚ) (n : ℕ),
      shrink_loop f maxeval target_eps sig_1 eps_1 fuel sig eps n ≠
        .err .invariantViolation := by
  intro fuel
  induction fuel with
  | zero =>
    intro sig eps n
    rw [shrink_loop]
    split <;> simp
  | succ fuel ih =>
    intro sig eps n
    rw [shrink_loop]
    by_cases hg : eps < target_eps
    · rw [if_pos hg]
      by_cases hn : n < maxeval
      · rw [if_pos hn]
        cases hf : f (sig / 4) 1 with
        | some eps' => exact ih _ _ _
        | none => simp
      · rw [if_neg hn]
        exact ih _ _ _
    · rw [if_neg hg]
      simp

/-- When the growth loop is entered with `target_eps ≤ eps_1` and returns a
    bracket, the bracket epsilons satisfy the invariant (the fixed lower-bound
    epsilon is `eps_1`, and the loop exits precisely when the evaluated
    epsilon drops below target). -/
theorem grow_loop_ok_bound_eps (f : Oracle) (maxeval : ℕ)
    (target_eps sig_1 eps_1 : ℚ) (h1 : target_eps ≤ eps_1) :
    ∀ (fuel : ℕ) (sig eps : ℚ) (n : ℕ) (r : (ℚ × ℚ) × (ℚ × ℚ) × ℕ),
      grow_loop f maxeval target_eps sig_1 eps_1 fuel sig eps n = .ok r →
      target_eps ≤ r.2.1.1 ∧ r.2.1.2 ≤ target_eps := by
  intro fuel
  induction fuel with
  | zero =>
    intro sig eps n r h
    rw [grow_loop] at h
    by_cases hg : target_eps ≤ eps
    · rw [if_pos hg] at h
      exact Res.noConfusion h
    · rw [if_neg hg] at h
      injection h with h2
      subst h2
      exact ⟨h1, (not_le.mp hg).le⟩
  | succ fuel ih =>
    intro sig eps n r h
    rw [grow_loop] at h
    by_cases hg : target_eps ≤ eps
    · rw [if_pos hg] at h
      by_cases hn : n < maxeval
      · rw [if_pos hn] at h
        cases hf : f (sig * 4) 1 with
        | some eps' =>
          rw [hf] at h
          exact ih _ _ _ _ h
        | none =>
          rw [hf] at h
          exact Res.noConfusion h
      · rw [if_neg hn] at h
        exact ih _ _ _ _ h
    · rw [if_neg hg] at h
      injection h with h2
      subst h2
      exact ⟨h1, (not_le.mp hg).le⟩

/-- When the shrink loop is entered with `eps_1 < target_eps` and returns a
    bracket, the bracket epsilons satisfy the invariant. -/
theorem shrink_loop_ok_bound_eps (f : Oracle) (maxeval : ℕ)
    (target_eps sig_1 eps_1 : ℚ) (h1 : eps_1 < target_eps) :
    ∀ (fuel : ℕ) (sig eps : ℚ) (n : ℕ) (r : (ℚ × ℚ) × (ℚ × ℚ) × ℕ),
      shrink_loop f maxeval target_eps sig_1 eps_1 fuel sig eps n = .ok r →
      target_eps ≤ r.2.1.1 ∧ r.2.1.2 ≤ target_eps := by
  intro fuel
  induction fuel with
  | zero =>
    intro sig eps n r h
    rw [shrink_loop] at h
    by_cases hg : eps < target_eps
    · rw [if_pos hg] at h
      exact Res.noConfusion h
    · rw [if_neg hg] at h
      injection h with h2
      subst h2
      exact ⟨not_lt.mp hg, h1.le⟩
  | succ fuel ih =>
    intro sig eps n r h
    rw [shrink_loop] at h
    by_cases hg : eps < target_eps
    · rw [if_pos hg] at h
      by_cases hn : n < maxeval
      · rw [if_pos hn] at h
        cases hf : f (sig / 4) 1 with
        | some eps' =>
          rw [hf] at h
          exact ih _ _ _ _ h
        | none =>
          rw [hf] at h
          exact Res.noConfusion h
      · rw [if_neg hn] at h
        exact ih _ _ _ _ h
    · rw [if_neg hg] at h
      injection h with h2
      subst h2
      exact ⟨not_lt.mp hg, h1.le⟩

/-- `get_bracketing_bounds` never raises the loop-invariant assertion. -/
theorem get_bracketing_bounds_no_invariantViolation (f : Oracle)
    (target_eps : ℚ) (maxeval : ℕ) (initial_sigma : ℚ) (fuel : ℕ) :
    get_bracketing_bounds f target_eps maxeval initial_sigma fuel ≠
      .err .invariantViolation := by
  unfold get_bracketing_bounds
  by_cases ha : 0 < initial_sigma
  · rw [if_pos ha]
    by_cases hb : 0 < target_eps
    · rw [if_pos hb]
      by_cases hc : 0 < maxeval
      · rw [if_pos hc]
        cases hst : stable_point_loop f maxeval fuel initial_sigma 0 with
        | err e =>
          intro hcontra
          injection hcontra with h2
          rw [h2] at hst
          exact stable_point_loop_no_invariantViolation f maxeval fuel initial_sigma 0 hst
        | ok v =>
          obtain ⟨sig, eps, n⟩ := v
          dsimp only
          by_cases hte : target_eps ≤ eps
          · rw [if_pos hte]
            exact grow_loop_no_invariantViolation f maxeval target_eps sig eps fuel sig eps n
          · rw [if_neg hte]
            exact shrink_loop_no_invariantViolation f maxeval target_eps sig eps fuel sig eps n
      · rw [if_neg hc]
        simp
    · rw [if_neg hb]
      simp
  · rw [if_neg ha]
    simp

/-- A successful `get_bracketing_bounds` establishes the bracket-epsilon
    invariant `bound_eps[0] ≥ target_eps ≥ bound_eps[1]`. -/
theorem get_bracketing_bounds_ok_invariant (f : Oracle) (target_eps : ℚ)
    (maxeval : ℕ) (initial_sigma : ℚ) (fuel : ℕ) (r : (ℚ × ℚ) × (ℚ × ℚ) × ℕ)
    (h : get_bracketing_bounds f target_eps maxeval initial_sigma fuel = .ok r) :
    target_eps ≤ r.2.1.1 ∧ r.2.1.2 ≤ target_eps := by
  unfold get_bracketing_bounds at h
  by_cases ha : 0 < initial_sigma
  · rw [if_pos ha] at h
    by_cases hb : 0 < target_eps
    · rw [if_pos hb] at h
      by_cases hc : 0 < maxeval
      · rw [if_pos hc] at h
        cases hst : stable_point_loop f maxeval fuel initial_sigma 0 with
        | err e =>
          rw [hst] at h
          exact Res.noConfusion h
        | ok v =>
          obtain ⟨sig, eps, n⟩ := v
          rw [hst] at h
          dsimp only at h
          by_cases hte : target_eps ≤ eps
          · rw [if_pos hte] at h
            exact grow_loop_ok_bound_eps f maxeval target_eps sig eps hte fuel sig eps n r h
          · rw [if_neg hte] at h
            exact shrink_loop_ok_bound_eps f maxeval target_eps sig eps (not_le.mp hte)
              fuel sig eps n r h
      · rw [if_neg hc] at h
        exact Res.noConfusion h
    · rw [if_neg hb] at h
      exact Res.noConfusion h
  · rw [if_neg ha] at h
    exact Res.noConfusion h

/-- Given the bracket invariant at entry, the refinement loop never raises the
    loop-invariant assertion: the invariant is preserved across every
    `update_bounds` call, including the anti-stall midpoint update. -/
theorem refine_loop_no_invariantViolation (f : Oracle) (log : ℚ → ℚ)
    (target_eps tol : ℚ) (maxeval : ℕ) :
    ∀ (fuel : ℕ) (bs be : ℚ × ℚ) (cu : ℕ × ℕ) (eps : ℚ) (nso : Option ℚ) (n : ℕ),
      target_eps ≤ be.1 → be.2 ≤ target_eps →
      refine_loop f log target_eps tol maxeval fuel bs be cu eps nso n ≠
        .err .invariantViolation := by
  intro fuel
  induction fuel with
  | zero =>
    intro bs be cu eps nso n hb0 hb1
    rw [refine_loop]
    split <;> simp
  | succ fuel ih =>
    intro bs be cu eps nso n hb0 hb1
    rw [refine_loop]
    by_cases hg : |target_eps - eps| > tol ∧ n < maxeval
    · rw [if_pos hg, if_pos hb0, if_pos hb1]
      by_cases hfit : bs.1 ≤ fit_new_sig log bs be target_eps ∧
          fit_new_sig log bs be target_eps ≤ bs.2
      · rw [if_pos hfit]
        cases hor : f (fit_new_sig log bs be target_eps) 1 with
        | none => simp
        | some eps' =>
          dsimp only
          cases hub : update_bounds (fit_new_sig log bs be target_eps) eps'
              target_eps bs be cu with
          | err e =>
            intro hcontra
            injection hcontra with h2
            rw [h2] at hub
            exact update_bounds_no_invariantViolation _ _ _ _ _ _ hub
          | ok v =>
            obtain ⟨bs', be', cu'⟩ := v
            have hinv := update_bounds_ok_invariant _ _ _ _ _ _ _ hb0 hb1 hub
            dsimp only
            by_cases hmid : (2 < cu'.1 ∨ 2 < cu'.2) ∧ n + 1 < maxeval
            · rw [if_pos hmid]
              cases hor2 : f ((bs'.1 + bs'.2) / 2) 1 with
              | none => simp
              | some eps2 =>
                dsimp only
                cases hub2 : update_bounds ((bs'.1 + bs'.2) / 2) eps2
                    target_eps bs' be' cu' with
                | err e =>
                  intro hcontra
                  injection hcontra with h2
                  rw [h2] at hub2
                  exact update_bounds_no_invariantViolation _ _ _ _ _ _ hub2
                | ok v2 =>
                  obtain ⟨bs'', be'', cu''⟩ := v2
                  have hinv2 := update_bounds_ok_invariant _ _ _ _ _ _ _
                    hinv.1 hinv.2 hub2
                  exact ih _ _ _ _ _ _ hinv2.1 hinv2.2
            · rw [if_neg hmid]
              exact ih _ _ _ _ _ _ hinv.1 hinv.2
      · rw [if_neg hfit]
        simp
    · rw [if_neg hg]
      simp

/-- The finalization step never raises the loop-invariant assertion. -/
theorem finalize_no_invariantViolation (force_smaller : Bool) (target_eps : ℚ)
    (bounds bound_eps : ℚ × ℚ) (new_sig0 : Option ℚ) (eps : ℚ) (n : ℕ) :
    finalize force_smaller target_eps bounds bound_eps new_sig0 eps n ≠
      .err .invariantViolation := by
  unfold finalize
  by_cases h1 : force_smaller = true ∧ target_eps < eps
  · rw [if_pos h1]
    by_cases h2 : bound_eps.1 < target_eps
    · rw [if_pos h2]
      dsimp only
      split
      · simp
      · simp
    · rw [if_neg h2]
      by_cases h3 : bound_eps.2 < target_eps
      · rw [if_pos h3]
        dsimp only
        split
        · simp
        · simp
      · rw [if_neg h3]
        simp
  · rw [if_neg h1]
    dsimp only
    split
    · simp
    · cases new_sig0 <;> simp

/-- C2: for every oracle (in particular every monotonically decreasing one)
    and every target epsilon, `_approximate_sigma` never fails with the
    invariant-violation assertion: the bracket invariant
    `bound_eps[0] ≥ target_eps ≥ bound_eps[1]` asserted at the start of every
    refinement iteration is established by `get_bracketing_bounds` and
    preserved by every call to `update_bounds`, including the anti-stall
    midpoint update. -/
theorem c2_bracket_invariant_never_violated (f : Oracle) (log : ℚ → ℚ)
    (target_eps q tol : ℚ) (force_smaller : Bool) (maxeval fuel : ℕ) :
    _approximate_sigma f log target_eps q tol force_smaller maxeval fuel ≠
      .err .invariantViolation := by
  unfold _approximate_sigma
  cases hbr : get_bracketing_bounds f target_eps maxeval (1 / (1/100 / q)) fuel with
  | err e =>
    intro hcontra
    injection hcontra with h2
    rw [h2] at hbr
    exact get_bracketing_bounds_no_invariantViolation _ _ _ _ _ hbr
  | ok v =>
    obtain ⟨bs, be, n⟩ := v
    have hinv := get_bracketing_bounds_ok_invariant _ _ _ _ _ _ hbr
    dsimp only
    cases hrl : refine_loop f log target_eps tol maxeval fuel bs be (0, 0) be.2 none n with
    | err e =>
      intro hcontra
      injection hcontra with h2
      rw [h2] at hrl
      exact refine_loop_no_invariantViolation f log target_eps tol maxeval fuel
        bs be (0, 0) be.2 none n hinv.1 hinv.2 hrl
    | ok w =>
      obtain ⟨bs', be', nso, eps, n'⟩ := w
      exact finalize_no_invariantViolation _ _ _ _ _ _ _

/-- Witness for C2 at a concrete monotone oracle and target. -/
theorem c2_bracket_invariant_witness :
    _approximate_sigma oracle_twelve_over id 3 (1/100) 1 true 10 30 ≠
      .err .invariantViolation :=
  c2_bracket_invariant_never_violated oracle_twelve_over id 3 (1/100) 1 true 10 30

/-! ### C5: `force_smaller` returns an epsilon strictly below target -/

/-- Whenever the finalization step of `_approximate_sigma` with
    `force_smaller = True` returns normally, the returned epsilon is strictly
    below `target_eps` (the re-selection and the final assert guarantee it). -/
theorem finalize_ok_eps_below_target (target_eps : ℚ) (bs be : ℚ × ℚ)
    (nso : Option ℚ) (eps : ℚ) (n : ℕ) (out : ℚ × ℚ × ℕ)
    (h : finalize true target_eps bs be nso eps n = .ok out) :
    out.2.1 < target_eps := by
  unfold finalize at h
  by_cases h1 : (true = true) ∧ target_eps < eps
  · rw [if_pos h1] at h
    by_cases h2 : be.1 < target_eps
    · rw [if_pos h2] at h
      dsimp only at h
      by_cases h3 : (true = true) ∧ target_eps ≤ be.1
      · rw [if_pos h3] at h
        exact Res.noConfusion h
      · rw [if_neg h3] at h
        injection h with h4
        subst h4
        exact h2
    · rw [if_neg h2] at h
      by_cases h3 : be.2 < target_eps
      · rw [if_pos h3] at h
        dsimp only at h
        by_cases h4 : (true = true) ∧ target_eps ≤ be.2
        · rw [if_pos h4] at h
          exact Res.noConfusion h
        · rw [if_neg h4] at h
          injection h with h5
          subst h5
          exact h3
      · rw [if_neg h3] at h
        exact Res.noConfusion h
  · rw [if_neg h1] at h
    dsimp only at h
    by_cases h2 : (true = true) ∧ target_eps ≤ eps
    · rw [if_pos h2] at h
      exact Res.noConfusion h
    · rw [if_neg h2] at h
      cases nso with
      | none => exact Res.noConfusion h
      | some s =>
        injection h with h3
        subst h3
        exact not_le.mp (fun hle => h2 ⟨rfl, hle⟩)

/-- C5: whenever `_approximate_sigma` is called with `force_smaller = True`
    and returns a `(sigma, epsilon, evaluations)` triple (rather than
    raising), the returned epsilon is strictly smaller than `target_eps`. -/
theorem c5_force_smaller_strict (f : Oracle) (log : ℚ → ℚ)
    (target_eps q tol : ℚ) (maxeval fuel : ℕ) (out : ℚ × ℚ × ℕ)
    (h : _approximate_sigma f log target_eps q tol true maxeval fuel = .ok out) :
    out.2.1 < target_eps := by
  unfold _approximate_sigma at h
  cases hbr : get_bracketing_bounds f target_eps maxeval (1 / (1/100 / q)) fuel with
  | err e =>
    rw [hbr] at h
    exact Res.noConfusion h
  | ok v =>
    obtain ⟨bs, be, n⟩ := v
    rw [hbr] at h
    dsimp only at h
    cases hrl : refine_loop f log target_eps tol maxeval fuel bs be (0, 0) be.2 none n with
    | err e =>
      rw [hrl] at h
      exact Res.noConfusion h
    | ok w =>
      obtain ⟨bs', be', nso, eps, n'⟩ := w
      rw [hrl] at h
      dsimp only at h
      exact finalize_ok_eps_below_target target_eps bs' be' nso eps n' out h

/-- Witness for C5: a complete successful `force_smaller` run against the
    monotone oracle `12/sigma` with `target_eps = 3`, `tol = 1`; the returned
    epsilon `384/161` is strictly below `3`. -/
theorem c5_force_smaller_witness :
    _approximate_sigma oracle_twelve_over id 3 (1/100) 1 true 10 30 =
      .ok (161/32, 384/161, 8) ∧ (384/161 : ℚ) < 3 := by
  have h1 : stable_point_loop oracle_twelve_over 10 30 1 0 = .ok (1, 12, 2) := by
    norm_num [stable_point_loop, oracle_twelve_over]
  have h2 : grow_loop oracle_twelve_over 10 3 1 12 30 1 12 2 =
      .ok ((1, 16), (12, 3/4), 4) := by
    norm_num [grow_loop, oracle_twelve_over]
  have h3 : get_bracketing_bounds oracle_twelve_over 3 10 1 30 =
      .ok ((1, 16), (12, 3/4), 4) := by
    norm_num [get_bracketing_bounds, h1, h2]
  have s1 : refine_loop oracle_twelve_over id 3 1 10 30
      (1, 16) (12, 3/4) (0, 0) (3/4) none 4 =
      refine_loop oracle_twelve_over id 3 1 10 29
        (1, 13) (12, 12/13) (0, 1) (12/13) (some 13) 5 := by
    rw [refine_loop]
    norm_num [fit_new_sig, update_bounds, oracle_twelve_over, abs_of_pos, abs_of_nonneg]
  have s2 : refine_loop oracle_twelve_over id 3 1 10 29
      (1, 13) (12, 12/13) (0, 1) (12/13) (some 13) 5 =
      refine_loop oracle_twelve_over id 3 1 10 28
        (1, 43/4) (12, 48/43) (0, 2) (48/43) (some (43/4)) 6 := by
    rw [refine_loop]
    norm_num [fit_new_sig, update_bounds, oracle_twelve_over, abs_of_pos, abs_of_nonneg]
  have s3 : refine_loop oracle_twelve_over id 3 1 10 28
      (1, 43/4) (12, 48/43) (0, 2) (48/43) (some (43/4)) 6 =
      refine_loop oracle_twelve_over id 3 1 10 27
        (1, 161/32) (12, 384/161) (0, 4) (384/161) (some (161/32)) 8 := by
    rw [refine_loop]
    norm_num [fit_new_sig, update_bounds, oracle_twelve_over, abs_of_pos, abs_of_nonneg]
  have s4 : refine_loop oracle_twelve_over id 3 1 10 27
      (1, 161/32) (12, 384/161) (0, 4) (384/161) (some (161/32)) 8 =
      .ok ((1, 161/32), (12, 384/161), some (161/32), 384/161, 8) := by
    rw [refine_loop]
    norm_num [abs_of_pos, abs_of_nonneg]
  have h5 : finalize true 3 (1, 161/32) (12, 384/161) (some (161/32)) (384/161) 8 =
      .ok (161/32, 384/161, 8) := by
    norm_num [finalize]
  have hrun : _approximate_sigma oracle_twelve_over id 3 (1/100) 1 true 10 30 =
      .ok (161/32, 384/161, 8) := by
    have hsig : (1 : ℚ) / (1/100 / (1/100)) = 1 := by norm_num
    simp only [_approximate_sigma, hsig, h3, s1, s2, s3, s4, h5]
  exact ⟨hrun, c5_force_smaller_strict oracle_twelve_over id 3 (1/100) 1 10 30
    (161/32, 384/161, 8) hrun⟩

/-! ### C7: recovery from oracle domain errors during bracketing -/

/-- C7 counterexample: the oracle raises a domain error at `sigma = 4` during
    the growth phase (concretely `oracle_raises_above_one 4 1 = none`), and
    `get_bracketing_bounds` does not recover by multiplying sigma by 10 and
    retrying — it crashes at the `np.mean(sig, sig_1)` call instead. -/
theorem c7_grow_domain_error_counterexample :
    oracle_raises_above_one 4 1 = none ∧
    get_bracketing_bounds oracle_raises_above_one 1 10 1 30 = .err .npMeanAxis := by
  have hs : stable_point_loop oracle_raises_above_one 10 30 1 0 = .ok (1, 2, 2) := by
    norm_num [stable_point_loop, oracle_raises_above_one]
  have hg : grow_loop oracle_raises_above_one 10 1 1 2 30 1 2 2 = .err .npMeanAxis := by
    norm_num [grow_loop, oracle_raises_above_one]
  constructor
  · norm_num [oracle_raises_above_one]
  · norm_num [get_bracketing_bounds, hs, hg]

/-- C7 (amended): in the initial stable-point search every oracle domain
    error is recovered by multiplying the current sigma by 10 and retrying,
    bounded by the evaluation budget; in the geometric growth and shrink
    loops a domain error is *not* retried — the handler
    `sig = np.mean(sig, sig_1)` raises (the second positional argument is
    `np.mean`'s `axis`), aborting bracketing. -/
theorem c7_recovery_mechanisms (f : Oracle) (maxeval : ℕ) :
    (∀ (fuel : ℕ) (sig : ℚ) (n : ℕ), n < maxeval → f sig 1 = none →
      stable_point_loop f maxeval (fuel + 1) sig n =
        stable_point_loop f maxeval fuel (sig * 10) (n + 1)) ∧
    (∀ (target_eps sig_1 eps_1 : ℚ) (fuel : ℕ) (sig eps : ℚ) (n : ℕ),
      target_eps ≤ eps → n < maxeval → f (sig * 4) 1 = none →
      grow_loop f maxeval target_eps sig_1 eps_1 (fuel + 1) sig eps n =
        .err .npMeanAxis) ∧
    (∀ (target_eps sig_1 eps_1 : ℚ) (fuel : ℕ) (sig eps : ℚ) (n : ℕ),
      eps < target_eps → n < maxeval → f (sig / 4) 1 = none →
      shrink_loop f maxeval target_eps sig_1 eps_1 (fuel + 1) sig eps n =
        .err .npMeanAxis) := by
  refine ⟨fun fuel sig n hn hv => ?_, fun t s1 e1 fuel sig eps n hge hn hv => ?_,
    fun t s1 e1 fuel sig eps n hlt hn hv => ?_⟩
  · rw [stable_point_loop, if_pos hn, hv]
  · rw [grow_loop, if_pos hge, if_pos hn, hv]
  · rw [shrink_loop, if_pos hlt, if_pos hn, hv]

/-- Witness for the amended C7 at concrete inputs: a stable-point retry with
    sigma ×10, and domain-error crashes of the growth and shrink loops. -/
theorem c7_recovery_witness :
    stable_point_loop oracle_raises_above_one 10 6 2 0 =
      stable_point_loop oracle_raises_above_one 10 5 20 1 ∧
    grow_loop oracle_raises_above_one 10 1 1 2 4 1 2 2 = .err .npMeanAxis ∧
    shrink_loop oracle_raises_above_one 10 3 1 2 4 8 2 2 = .err .npMeanAxis := by
  refine ⟨?_, ?_, ?_⟩
  · have h := (c7_recovery_mechanisms oracle_raises_above_one 10).1 5 2 0
      (by norm_num) (by norm_num [oracle_raises_above_one])
    norm_num at h
    exact h
  · have h := (c7_recovery_mechanisms oracle_raises_above_one 10).2.1 1 1 2 3 1 2 2
      (by norm_num) (by norm_num) (by norm_num [oracle_raises_above_one])
    norm_num at h
    exact h
  · have h := (c7_recovery_mechanisms oracle_raises_above_one 10).2.2 3 1 2 3 8 2 2
      (by norm_num) (by norm_num) (by norm_num [oracle_raises_above_one])
    norm_num at h
    exact h

end Dppp
